import Mathlib

/-!
Shallow embedding of the phoenix-chan client library (Rust sources in
src/builder.rs, src/client.rs, src/error.rs, src/lib.rs, src/message.rs)
and verification of its specification claims.

The serde data model is represented by the inductive `Json` below.  The
codec of `src/message.rs` (the Serialize and Deserialize impls of
`ChannelMsg`) is embedded as functions between `ChannelMsg` and `Json`;
the textual layer of serde_json (compact printing) is embedded by
`Json.render`.  Machine integers: the reference-id counter is a Rust
`AtomicUsize` whose `fetch_add` wraps; it is modelled as a `Nat` reduced
modulo `usizeMod = 2 ^ 64` (a 64-bit platform).
-/

/-- The serde_json value data model (serde_json::Value), restricted to
integer numbers: no claim involves floating point payloads. -/
inductive Json where
  | null : Json
  | bool (b : Bool) : Json
  | num (n : Int) : Json
  | str (s : String) : Json
  | arr (xs : List Json) : Json
  | obj (fields : List (String × Json)) : Json

/-- Hex digit for JSON control-character escapes. -/
def hexDigit (n : Nat) : Char :=
  if n < 10 then Char.ofNat (48 + n) else Char.ofNat (87 + n)

/-- serde_json string escaping for a single character. -/
def escapeChar (c : Char) : String :=
  if c = '"' then "\\\""
  else if c = '\\' then "\\\\"
  else if c = '\n' then "\\n"
  else if c = '\r' then "\\r"
  else if c = '\t' then "\\t"
  else if c = Char.ofNat 8 then "\\b"
  else if c = Char.ofNat 12 then "\\f"
  else if c.toNat < 32 then
    "\\u00" ++ String.mk [hexDigit (c.toNat / 16), hexDigit (c.toNat % 16)]
  else String.singleton c

/-- serde_json rendering of a string literal, quotes included. -/
def renderStr (s : String) : String :=
  "\"" ++ String.join (s.data.map escapeChar) ++ "\""

mutual

/-- Compact serde_json printing (serde_json::to_string) of a value. -/
def Json.render : Json → String
  | .null => "null"
  | .bool b => if b then "true" else "false"
  | .num n => toString n
  | .str s => renderStr s
  | .arr xs => "[" ++ Json.renderArr xs ++ "]"
  | .obj fs => "\x7b" ++ Json.renderObj fs ++ "\x7d"

/-- Comma-separated rendering of array elements. -/
def Json.renderArr : List Json → String
  | [] => ""
  | [x] => Json.render x
  | x :: y :: xs => Json.render x ++ "," ++ Json.renderArr (y :: xs)

/-- Comma-separated rendering of object entries. -/
def Json.renderObj : List (String × Json) → String
  | [] => ""
  | [(k, v)] => renderStr k ++ ":" ++ Json.render v
  | (k, v) :: e :: fs =>
    renderStr k ++ ":" ++ Json.render v ++ "," ++ Json.renderObj (e :: fs)

end

/-- Reference id (src/client.rs: `pub type Id = usize`); named `RefId`
here because `Id` is taken by the Lean prelude. -/
abbrev RefId := Nat

/-- `Message<P>` of src/message.rs: the public message type. -/
structure Message (P : Type) where
  join_reference : Option String
  message_reference : Option String
  topic_name : String
  event_name : String
  payload : P
deriving DecidableEq

/-- The internal wire message type `ChannelMsg` of src/message.rs, generic
in a borrowed lifetime and the payload type
(`Cow<str>` fields are plain strings in the embedding). -/
structure ChannelMsg (P : Type) where
  join_reference : Option String
  message_reference : Option String
  topic_name : String
  event_name : String
  payload : P
deriving DecidableEq

/-- `ChannelMsg::new` (src/message.rs lines 118-132): ids are rendered as
decimal strings via `Id::to_string`. -/
def ChannelMsg.new (join_reference message_reference : Option RefId)
    (topic_name event_name : String) (payload : P) : ChannelMsg P :=
  { join_reference := join_reference.map toString
    message_reference := message_reference.map toString
    topic_name := topic_name
    event_name := event_name
    payload := payload }

/-- `ChannelMsg::into_err` (src/message.rs lines 134-143): keep the four
reference/topic/event fields, erase the payload to `()`. -/
def ChannelMsg.into_err (m : ChannelMsg P) : Message Unit :=
  { join_reference := m.join_reference
    message_reference := m.message_reference
    topic_name := m.topic_name
    event_name := m.event_name
    payload := () }

/-- `From<ChannelMsg> for Message` (src/message.rs lines 48-58). -/
def Message.fromChannelMsg (m : ChannelMsg P) : Message P :=
  { join_reference := m.join_reference
    message_reference := m.message_reference
    topic_name := m.topic_name
    event_name := m.event_name
    payload := m.payload }

/-- Serialization of an `Option<Cow<str>>` field in the serde data model:
`None` is JSON null, `Some s` is a JSON string. -/
def encOptStr : Option String → Json
  | none => .null
  | some s => .str s

/-- The `Serialize` impl of `ChannelMsg` (src/message.rs lines 145-161):
a sequence of exactly 5 elements in fixed order; the payload is
serialized by its own `Serialize` impl, abstracted as `encP`. -/
def encodeMsg (encP : P → Json) (m : ChannelMsg P) : Json :=
  .arr [encOptStr m.join_reference, encOptStr m.message_reference,
        .str m.topic_name, .str m.event_name, encP m.payload]

/-- Decode errors of the serde_json deserializer relevant to the codec:
`invalidLength n` is serde `Error::invalid_length(n, &"5")`,
`invalidType` a serde invalid-type error, `trailingCharacters` the
serde_json `TrailingCharacters` error raised by `end_seq` when the
visitor returns with array elements still unread. -/
inductive DErr where
  | invalidLength (n : Nat) : DErr
  | invalidType : DErr
  | trailingCharacters : DErr
deriving DecidableEq

/-- Whether a decode error is an arity (invalid-length) error. -/
def DErr.isArity : DErr → Bool
  | .invalidLength _ => true
  | _ => false

/-- Deserializing an `Option<Cow<str>>` element: null gives `None`, a
string gives `Some`, anything else is a serde invalid-type error. -/
def decNullableStr : Json → Except DErr (Option String)
  | .null => .ok none
  | .str s => .ok (some s)
  | _ => .error .invalidType

/-- Deserializing a `Cow<str>` element: only a JSON string succeeds. -/
def decStr : Json → Except DErr String
  | .str s => .ok s
  | _ => .error .invalidType

/-- `ChannelMsgVisitor::visit_seq` (src/message.rs lines 191-224) run by
serde_json::from_str on the element list of a JSON array, composed with
the `end_seq` check of serde_json.  Streaming deserialization gives the
visitor no size hint, so the `size_hint` branch of `visit_seq` does not
fire: a missing element at position `k` yields `invalid_length(k, &"5")`,
and elements left over after the five reads yield `TrailingCharacters`. -/
def decodeElems (decP : Json → Except DErr P) (xs : List Json) :
    Except DErr (ChannelMsg P) :=
  match xs with
  | [] => .error (.invalidLength 0)
  | x0 :: xs0 =>
    match decNullableStr x0 with
    | .error e => .error e
    | .ok jr =>
      match xs0 with
      | [] => .error (.invalidLength 1)
      | x1 :: xs1 =>
        match decNullableStr x1 with
        | .error e => .error e
        | .ok mr =>
          match xs1 with
          | [] => .error (.invalidLength 2)
          | x2 :: xs2 =>
            match decStr x2 with
            | .error e => .error e
            | .ok topic =>
              match xs2 with
              | [] => .error (.invalidLength 3)
              | x3 :: xs3 =>
                match decStr x3 with
                | .error e => .error e
                | .ok event =>
                  match xs3 with
                  | [] => .error (.invalidLength 4)
                  | x4 :: xs4 =>
                    match decP x4 with
                    | .error e => .error e
                    | .ok p =>
                      match xs4 with
                      | [] => .ok ⟨jr, mr, topic, event, p⟩
                      | _ :: _ => .error .trailingCharacters

/-- The `Deserialize` impl of `ChannelMsg` (src/message.rs lines 163-231)
at the serde data-model level: only a JSON array reaches the visitor,
any other value is an invalid-type error. -/
def decodeMsg (decP : Json → Except DErr P) : Json → Except DErr (ChannelMsg P)
  | .arr xs => decodeElems decP xs
  | _ => .error .invalidType

/-- `serde_json::from_value` at target type `serde_json::Value`
(the instantiation used by `Message::deserialize_payload`): modelled from
serde_json, deserializing a `Value` from a `Value` is the identity and
cannot fail. -/
def fromValueAtValue (v : Json) : Except DErr Json := .ok v

/-- `Message::deserialize_payload::<P>` (src/message.rs lines 60-76).
The Rust type parameter `P` is never used by the body: the struct literal
forces `serde_json::from_value` to target `serde_json::Value`, so the
embedding takes `P` as an ignored argument, exactly as type inference
resolves it in the source. -/
def Message.deserialize_payload (_P : Type) (m : Message Json) :
    Except DErr (Message Json) :=
  match fromValueAtValue m.payload with
  | .ok payload =>
    .ok { join_reference := m.join_reference
          message_reference := m.message_reference
          topic_name := m.topic_name
          event_name := m.event_name
          payload := payload }
  | .error e => .error e

/-- The error taxonomy of src/error.rs.  External error payloads
(http, tungstenite, serde_json sources) are dropped; `Send` keeps the
`Message<()>` it carries, as in the source. -/
inductive Error where
  | Uri : Error
  | UriBuild : Error
  | Connect : Error
  | Serialize : Error
  | Deserialize : Error
  | Send (msg : Message Unit) : Error
  | Recv : Error
  | WebSocketMessageType : Error
  | Disconnected : Error
deriving DecidableEq

/-- One more than the largest `usize` value on a 64-bit platform; the
`AtomicUsize::fetch_add` in `Client::next_id` wraps at this modulus. -/
def usizeMod : Nat := 2 ^ 64

/-- The shared mutable state of `Client` (src/client.rs lines 35-40)
touched by the claims: the `msg_id` counter and the `sent` liveness flag.
The write and read halves of the socket are the external transport. -/
structure ClientState where
  msg_id : Nat
  sent : Bool
deriving DecidableEq

/-- `Client::new` (src/client.rs lines 43-54): counter starts at 0, the
liveness flag starts false. -/
def Client.init : ClientState := { msg_id := 0, sent := false }

/-- `Client::next_id` (src/client.rs lines 56-58):
`fetch_add(1, AcqRel)` returns the old value and wraps on overflow. -/
def Client.next_id (s : ClientState) : Nat × ClientState :=
  (s.msg_id, { s with msg_id := (s.msg_id + 1) % usizeMod })

/-- `Client::write_msg` (src/client.rs lines 124-149): serialize the
message to its wire text, send it on the write half (the transport
outcome is the argument `tok`), and set `sent = true` only after a
successful send.  A failed send produces `Error::Send` carrying
`msg.into_err()` and leaves the state untouched. -/
def Client.write_msg (s : ClientState) (m : ChannelMsg Json) (tok : Bool) :
    ClientState × Except Error String :=
  let txt := (encodeMsg (fun p => p) m).render
  if tok then ({ s with sent := true }, .ok txt)
  else (s, .error (.Send m.into_err))

/-- `Client::join_with_payload` (src/client.rs lines 72-87): allocate an
id, build the `phx_join` message with `join_reference` and
`message_reference` both set to the id, write it.  The third component
is the list of frames actually written to the socket. -/
def Client.join_with_payload (s : ClientState) (topic : String)
    (payload : Json) (tok : Bool) :
    ClientState × Except Error RefId × List (ChannelMsg Json) :=
  let (id, s1) := Client.next_id s
  let msg := ChannelMsg.new (some id) (some id) topic "phx_join" payload
  match Client.write_msg s1 msg tok with
  | (s2, .ok _) => (s2, .ok id, [msg])
  | (s2, .error e) => (s2, .error e, [])

/-- `Client::join` (src/client.rs lines 66-68): join with the default
(empty) `Map` payload, which serializes as the empty JSON object. -/
def Client.join (s : ClientState) (topic : String) (tok : Bool) :
    ClientState × Except Error RefId × List (ChannelMsg Json) :=
  Client.join_with_payload s topic (.obj []) tok

/-- `Client::leave` (src/client.rs lines 91-103): allocate an id, build
the `phx_leave` message with no `join_reference` and the default (empty)
`Map` payload, write it. -/
def Client.leave (s : ClientState) (topic : String) (tok : Bool) :
    ClientState × Except Error RefId × List (ChannelMsg Json) :=
  let (id, s1) := Client.next_id s
  let msg := ChannelMsg.new none (some id) topic "phx_leave" (.obj [])
  match Client.write_msg s1 msg tok with
  | (s2, .ok _) => (s2, .ok id, [msg])
  | (s2, .error e) => (s2, .error e, [])

/-- `Client::send` (src/client.rs lines 107-122): allocate an id, build
the message with the caller-supplied event and no `join_reference`,
write it. -/
def Client.send (s : ClientState) (topic event : String) (payload : Json)
    (tok : Bool) : ClientState × Except Error RefId × List (ChannelMsg Json) :=
  let (id, s1) := Client.next_id s
  let msg := ChannelMsg.new none (some id) topic event payload
  match Client.write_msg s1 msg tok with
  | (s2, .ok _) => (s2, .ok id, [msg])
  | (s2, .error e) => (s2, .error e, [])

/-- `Client::check_and_send_heartbeat` (src/client.rs lines 207-234):
`compare_exchange(true, false)` on the `sent` flag.  If the flag was true
it is cleared and nothing is written; if it was false, a heartbeat
message (`join_reference` absent, topic `"phoenix"`, event
`"heartbeat"`, empty payload) is written through the normal write path. -/
def Client.check_and_send_heartbeat (s : ClientState) (tok : Bool) :
    ClientState × Except Error Unit × List (ChannelMsg Json) :=
  if s.sent then
    ({ s with sent := false }, .ok (), [])
  else
    let (id, s1) := Client.next_id s
    let msg := ChannelMsg.new none (some id) "phoenix" "heartbeat" (.obj [])
    match Client.write_msg s1 msg tok with
    | (s2, .ok _) => (s2, .ok (), [msg])
    | (s2, .error e) => (s2, .error e, [])

/-- One outbound event of a connection trace: the three application
write calls, plus a keep-alive timer tick observed while a receive is in
flight (the Left branch of the select in `Client::next_msg`). -/
inductive Op where
  | join (topic : String) (payload : Json) : Op
  | leave (topic : String) : Op
  | send (topic event : String) (payload : Json) : Op
  | tick : Op

/-- Run one operation on a live transport (all writes succeed), keeping
the frames it writes. -/
def stepOp (s : ClientState) : Op → ClientState × List (ChannelMsg Json)
  | .join t p => let (s', _, ws) := Client.join_with_payload s t p true; (s', ws)
  | .leave t => let (s', _, ws) := Client.leave s t true; (s', ws)
  | .send t e p => let (s', _, ws) := Client.send s t e p true; (s', ws)
  | .tick => let (s', _, ws) := Client.check_and_send_heartbeat s true; (s', ws)

/-- Run a sequence of operations, concatenating the written frames in
write order. -/
def runOps (s : ClientState) : List Op → ClientState × List (ChannelMsg Json)
  | [] => (s, [])
  | op :: ops =>
    let (s1, ws) := stepOp s op
    let (s2, rest) := runOps s1 ops
    (s2, ws ++ rest)

/-- The wire text of a frame: serde_json::to_string of the message, as
performed by `Client::write_msg`. -/
def wireText (m : ChannelMsg Json) : String :=
  (encodeMsg (fun p => p) m).render

/-- A URI reduced to the parts `Builder::new` manipulates: its path and
optional query.  Scheme and authority are untouched by the source
(`uri::Builder::from(uri)` keeps them), so they are not represented. -/
structure Uri where
  path : String
  query : Option String
deriving DecidableEq

/-- Validity of one character inside a path-and-query string.  Modelled
from the http crate (external collaborator): printable ASCII without
space, with the fragment delimiter rejected. -/
def isPqChar (c : Char) : Bool :=
  decide (33 ≤ c.toNat) && decide (c.toNat ≤ 126) && c != '#'

/-- Split a character list at the first `?`, as http splits a
path-and-query into path and query. -/
def splitAtFirstQ : List Char → List Char × Option (List Char)
  | [] => ([], none)
  | c :: cs =>
    if c = '?' then ([], some cs)
    else
      let (p, q) := splitAtFirstQ cs
      (c :: p, q)

/-- Modelled from the http crate (external collaborator):
`PathAndQuery::try_from` validates the characters of the string and
splits it at the first `?` into path and query. -/
def PathAndQuery.tryFrom (s : String) : Except Unit Uri :=
  if s.data.all (fun c => isPqChar c || c = '?') then
    let (p, q) := splitAtFirstQ s.data
    .ok { path := String.mk p, query := q.map String.mk }
  else .error ()

/-- Rust `str::split('&')` on a character list: every occurrence of the
separator splits, empty segments included (splitting the empty string
gives one empty segment). -/
def splitAmp : List Char → List (List Char)
  | [] => [[]]
  | c :: cs =>
    match splitAmp cs with
    | [] => [[c]]
    | seg :: rest =>
      if c = '&' then [] :: seg :: rest
      else (c :: seg) :: rest

/-- The `has_vsn` check of `Builder::new` (src/builder.rs lines 42-44):
the query exists and one of its `&`-separated parts starts with
`vsn=`. -/
def hasVsn (q : Option String) : Bool :=
  match q with
  | some s => (splitAmp s.data).any (fun part => "vsn=".data.isPrefixOf part)
  | none => false

/-- The configuration state of `Builder` (src/builder.rs lines 30-36)
needed by the claims: the normalized URI, the sub-protocol values
registered on the handshake request so far, and the stored auth token. -/
structure Builder where
  uri : Uri
  subProtocols : List String
  authToken : Option String
deriving DecidableEq

/-- `Builder::new` (src/builder.rs lines 41-72): when no `vsn=` query
parameter is present, rebuild the path-and-query with `vsn=2.0.0`
appended (after existing parameters when the query is non-empty, the
`pq` binding of the source embodied by `vsnPqStr` below);
`PathAndQuery::try_from` failure is `Error::Uri`.  The uri::Builder
rebuild keeps scheme and authority and swaps the path-and-query; in this
model a URI is exactly its path and query, so the rebuild is the new
path-and-query itself (its `Error::UriBuild` arises only from
scheme/authority part inconsistencies, which this model does not
represent). -/
def vsnPqStr (u : Uri) : String :=
  match u.query with
  | some q =>
    if !q.isEmpty then u.path ++ "?" ++ q ++ "&vsn=2.0.0"
    else u.path ++ "?vsn=2.0.0"
  | none => u.path ++ "?vsn=2.0.0"

/-- `Builder::new`, continued: reject or accept the rebuilt
path-and-query. -/
def Builder.new (u : Uri) : Except Error Builder :=
  if hasVsn u.query then
    .ok { uri := u, subProtocols := [], authToken := none }
  else
    match PathAndQuery.tryFrom (vsnPqStr u) with
    | .error _ => .error .Uri
    | .ok u2 => .ok { uri := u2, subProtocols := [], authToken := none }

/-- `AUTH_TOKEN_PREFIX` (src/builder.rs line 21). -/
def authTokenPrefixStr : String := "base64url.bearer.phx."

/-- The URL-safe base64 alphabet used by `BASE64_URL_SAFE_NO_PAD`
(src/builder.rs line 23). -/
def b64Alphabet : List Char :=
  "ABCDEFGHIJKLMNOPQRSTUVWXYZabcdefghijklmnopqrstuvwxyz0123456789-_".data

/-- The alphabet character at a 6-bit index. -/
def b64Char (n : Nat) : Char := (b64Alphabet.get? n).getD 'A'

/-- Base64 encoding of a byte list, without padding: each 3-byte group
becomes 4 alphabet characters, a trailing group of 1 or 2 bytes becomes
2 or 3 characters and no `=` is emitted (the NO_PAD engine of the base64
crate, an external collaborator of src/builder.rs). -/
def b64EncodeChars : List Nat → List Char
  | [] => []
  | [a] => [b64Char (a / 4), b64Char (a % 4 * 16)]
  | [a, b] => [b64Char (a / 4), b64Char (a % 4 * 16 + b / 16), b64Char (b % 16 * 4)]
  | a :: b :: c :: rest =>
    b64Char (a / 4) :: b64Char (a % 4 * 16 + b / 16) ::
      b64Char (b % 16 * 4 + c / 64) :: b64Char (c % 64) :: b64EncodeChars rest

/-- `BASE_64.encode` on the UTF-8 bytes of the raw token. -/
def base64UrlNoPad (bytes : List Nat) : String := String.mk (b64EncodeChars bytes)

/-- `Builder::auth_token` (src/builder.rs lines 100-108): store
`AUTH_TOKEN_PREFIX` followed by the base64url-no-pad encoding of the raw
token bytes, and register the fixed `"phoenix"` sub-protocol. -/
def Builder.auth_token (b : Builder) (tokenBytes : List Nat) : Builder :=
  { b with
    authToken := some (authTokenPrefixStr ++ base64UrlNoPad tokenBytes)
    subProtocols := b.subProtocols ++ ["phoenix"] }

/-- The sub-protocol values on the handshake request assembled by
`Builder::connect` (src/builder.rs lines 128-131): the stored auth token
value, when present, is registered as one more sub-protocol just before
the handshake (the handshake itself is the external transport). -/
def Builder.connectSubProtocols (b : Builder) : List String :=
  match b.authToken with
  | some token => b.subProtocols ++ [token]
  | none => b.subProtocols

/-- N sequential id allocations on one client: the stream of values
returned by `Client::next_id`. -/
def Client.allocN : ClientState → Nat → List RefId × ClientState
  | s, 0 => ([], s)
  | s, n + 1 =>
    let (id, s1) := Client.next_id s
    let (ids, s2) := Client.allocN s1 n
    (id :: ids, s2)

theorem allocN_fst_cons (s : ClientState) (n : Nat) :
    (Client.allocN s (n + 1)).1 =
      s.msg_id :: (Client.allocN { s with msg_id := (s.msg_id + 1) % usizeMod } n).1 := by
  simp [Client.allocN, Client.next_id]

theorem allocN_range' : ∀ (n c : Nat) (b : Bool), c + n ≤ usizeMod →
    (Client.allocN ⟨c, b⟩ n).1 = List.range' c n
  | 0, c, b, h => by simp [Client.allocN]
  | n + 1, c, b, h => by
    rw [allocN_fst_cons, List.range'_succ]
    cases n with
    | zero => simp [Client.allocN]
    | succ n2 =>
      have hc : (c + 1) % usizeMod = c + 1 := Nat.mod_eq_of_lt (by omega)
      simp only [hc]
      rw [allocN_range' (n2 + 1) (c + 1) b (by omega)]

/-- A canonical JSON array of length `n`: a prefix of a well-typed
5-element frame, padded beyond length 5 with nulls. -/
def canonArr (n : Nat) : List Json :=
  List.take n [.null, .null, .str "t", .str "e", .obj []] ++
    List.replicate (n - 5) .null

theorem decodeElems_ok_length (decP : Json → Except DErr P) (xs : List Json)
    (m : ChannelMsg P) (h : decodeElems decP xs = .ok m) : xs.length = 5 := by
  unfold decodeElems at h
  repeat' split at h
  all_goals simp_all

theorem string_data_append (s t : String) : (s ++ t).data = s.data ++ t.data := by
  rcases s with ⟨a⟩; rcases t with ⟨b⟩; rfl

theorem string_mk_data (s : String) : String.mk s.data = s := by
  rcases s with ⟨d⟩; rfl

theorem splitAtFirstQ_append (l1 l2 : List Char) (h : ∀ c ∈ l1, c ≠ '?') :
    splitAtFirstQ (l1 ++ '?' :: l2) = (l1, some l2) := by
  induction l1 with
  | nil => simp [splitAtFirstQ]
  | cons c cs ih =>
    have hc : c ≠ '?' := h c (List.mem_cons_self c cs)
    have ih' := ih (fun x hx => h x (List.mem_cons_of_mem c hx))
    simp [splitAtFirstQ, hc, ih']

theorem pathValid_parts (path : String)
    (hp : path.data.all (fun c => isPqChar c && (c != '?')) = true) :
    (∀ c ∈ path.data, isPqChar c = true) ∧ (∀ c ∈ path.data, c ≠ '?') := by
  have h := List.all_eq_true.mp hp
  constructor
  · intro c hc
    have := h c hc
    simp only [Bool.and_eq_true, bne_iff_ne] at this
    exact this.1
  · intro c hc
    have := h c hc
    simp only [Bool.and_eq_true, bne_iff_ne] at this
    exact this.2

theorem tryFrom_split (path tail : String)
    (hp : path.data.all (fun c => isPqChar c && (c != '?')) = true)
    (ht : tail.data.all (fun c => isPqChar c || c = '?') = true) :
    PathAndQuery.tryFrom (path ++ "?" ++ tail) = .ok ⟨path, some tail⟩ := by
  obtain ⟨h1, h2⟩ := pathValid_parts path hp
  have hdata : (path ++ "?" ++ tail).data = path.data ++ '?' :: tail.data := by
    rw [string_data_append, string_data_append]
    simp
  have hvalid : ((path ++ "?" ++ tail).data.all (fun c => isPqChar c || c = '?')) = true := by
    rw [hdata]
    refine List.all_eq_true.mpr fun c hc => ?_
    rcases List.mem_append.mp hc with h | h
    · simp [h1 c h]
    · rcases List.mem_cons.mp h with h | h
      · simp [h]
      · simp [List.all_eq_true.mp ht c h]
  have hsplit : splitAtFirstQ (path ++ "?" ++ tail).data = (path.data, some tail.data) := by
    rw [hdata]
    exact splitAtFirstQ_append _ _ h2
  unfold PathAndQuery.tryFrom
  rw [hvalid, if_pos rfl, hsplit]
  simp [string_mk_data]

theorem b64Char_ne_pad (n : Nat) : b64Char n ≠ '=' := by
  unfold b64Char
  rcases h : b64Alphabet.get? n with _ | c
  · simp
  · have hc : c ∈ b64Alphabet := List.get?_mem h
    have hne : ('=' : Char) ∉ b64Alphabet := by decide
    simp only [Option.getD_some]
    intro he
    exact hne (he ▸ hc)

theorem b64_no_pad : ∀ bytes, '=' ∉ b64EncodeChars bytes
  | [] => by simp [b64EncodeChars]
  | [a] => by
    simp only [b64EncodeChars, List.mem_cons, List.not_mem_nil, or_false]
    rintro (h | h) <;> exact b64Char_ne_pad _ h.symm
  | [a, b] => by
    simp only [b64EncodeChars, List.mem_cons, List.not_mem_nil, or_false]
    rintro (h | h | h) <;> exact b64Char_ne_pad _ h.symm
  | a :: b :: c :: rest => by
    simp only [b64EncodeChars, List.mem_cons]
    rintro (h | h | h | h | h)
    · exact b64Char_ne_pad _ h.symm
    · exact b64Char_ne_pad _ h.symm
    · exact b64Char_ne_pad _ h.symm
    · exact b64Char_ne_pad _ h.symm
    · exact b64_no_pad rest h

/-- C1: at every keep-alive tick observed while a receive is in flight,
exactly one of two outcomes happens, determined by the `sent` flag:
if the flag was true it is cleared and no heartbeat frame is written;
if it was false a heartbeat frame is written via the normal write path,
which itself sets the flag true.  Moreover a successful write completing
strictly before a tick suppresses the heartbeat of that tick, and two ticks
with no write in between emit no heartbeat on the first tick and exactly
one heartbeat on the second. -/
theorem heartbeat_tick_exactly_one (s : ClientState) (n : Nat) (m : ChannelMsg Json) :
    ((s.sent = true ∧
        Client.check_and_send_heartbeat s true = ({ s with sent := false }, .ok (), [])) ∨
      (s.sent = false ∧
        Client.check_and_send_heartbeat s true =
          ({ msg_id := (s.msg_id + 1) % usizeMod, sent := true }, .ok (),
            [ChannelMsg.new none (some s.msg_id) "phoenix" "heartbeat" (.obj [])]))) ∧
    (Client.check_and_send_heartbeat (Client.write_msg s m true).1 true).2.2 = [] ∧
    (Client.check_and_send_heartbeat { msg_id := n, sent := true } true).2.2 = [] ∧
    (Client.check_and_send_heartbeat
        (Client.check_and_send_heartbeat { msg_id := n, sent := true } true).1 true).2.2 =
      [ChannelMsg.new none (some n) "phoenix" "heartbeat" (.obj [])] := by
  refine ⟨?_, ?_, ?_, ?_⟩
  · cases hs : s.sent
    · right
      exact ⟨rfl, by simp [Client.check_and_send_heartbeat, hs, Client.next_id, Client.write_msg]⟩
    · left
      exact ⟨rfl, by simp [Client.check_and_send_heartbeat, hs]⟩
  · simp [Client.write_msg, Client.check_and_send_heartbeat]
  · simp [Client.check_and_send_heartbeat]
  · simp [Client.check_and_send_heartbeat, Client.next_id, Client.write_msg]

/-- C2: for every message, with any combination of present and absent
references and any payload whose own codec round-trips, decoding the
encoded wire form yields exactly the original message. -/
theorem message_roundtrip (P : Type) (encP : P → Json) (decP : Json → Except DErr P)
    (h : ∀ p, decP (encP p) = .ok p) (m : ChannelMsg P) :
    decodeMsg decP (encodeMsg encP m) = .ok m := by
  rcases m with ⟨jr, mr, t, e, p⟩
  cases jr <;> cases mr <;>
    simp [encodeMsg, decodeMsg, decodeElems, decNullableStr, decStr, encOptStr, h]

theorem message_roundtrip_witness :
    (∀ p : Json, (fun j => (Except.ok j : Except DErr Json)) ((fun p => p) p) = .ok p) ∧
    decodeMsg (fun j => .ok j)
        (encodeMsg (fun p => p)
          ({ join_reference := some "0", message_reference := none,
             topic_name := "t", event_name := "e", payload := Json.null } : ChannelMsg Json)) =
      .ok { join_reference := some "0", message_reference := none,
            topic_name := "t", event_name := "e", payload := Json.null } :=
  ⟨fun _ => rfl,
    message_roundtrip Json (fun p => p) (fun j => .ok j) (fun _ => rfl)
      { join_reference := some "0", message_reference := none,
        topic_name := "t", event_name := "e", payload := Json.null }⟩

/-- C3, counterexample: a 6-element array (a well-typed 5-element frame
followed by one extra null) is rejected by decode, but with the
serde_json trailing-characters error, not with an arity error reporting
a missing position, contradicting the claim for lengths above 5. -/
theorem decode_arity_counterexample :
    decodeElems (fun j => (.ok j : Except DErr Json))
      [.null, .null, .str "t", .str "e", .obj [], .null] = .error .trailingCharacters ∧
    DErr.isArity .trailingCharacters = false :=
  ⟨rfl, rfl⟩

/-- C3, amended: decode rejects every JSON array whose length is not 5
(the array is never padded or truncated); on arrays whose present
elements are individually well-typed, lengths below 5 fail with the
arity error invalid_length(len) reporting the missing position, while
lengths 6 through 10 fail with the trailing-characters error. -/
theorem decode_arity_lengths :
    (∀ (P : Type) (decP : Json → Except DErr P) (xs : List Json) (m : ChannelMsg P),
        decodeElems decP xs = .ok m → xs.length = 5) ∧
    (∀ n, n < 5 →
        decodeElems (fun j => (.ok j : Except DErr Json)) (canonArr n) =
          .error (.invalidLength n)) ∧
    (∀ n, 5 < n → n ≤ 10 →
        decodeElems (fun j => (.ok j : Except DErr Json)) (canonArr n) =
          .error .trailingCharacters) := by
  refine ⟨fun P decP xs m h => decodeElems_ok_length decP xs m h, ?_, ?_⟩
  · intro n hn
    interval_cases n <;> rfl
  · intro n h5 h10
    interval_cases n <;> rfl

theorem decode_arity_lengths_witness :
    (decodeElems (fun j => (.ok j : Except DErr Json))
        [.null, .null, .str "t", .str "e", .obj []] =
      .ok { join_reference := none, message_reference := none,
            topic_name := "t", event_name := "e", payload := Json.obj [] }) ∧
    ([Json.null, Json.null, Json.str "t", Json.str "e", Json.obj []].length = 5) ∧
    (3 < 5) ∧
    (decodeElems (fun j => (.ok j : Except DErr Json)) (canonArr 3) =
      .error (.invalidLength 3)) ∧
    (5 < 7) ∧ (7 ≤ 10) ∧
    (decodeElems (fun j => (.ok j : Except DErr Json)) (canonArr 7) =
      .error .trailingCharacters) :=
  ⟨rfl,
    decode_arity_lengths.1 Json (fun j => .ok j)
      [.null, .null, .str "t", .str "e", .obj []]
      { join_reference := none, message_reference := none,
        topic_name := "t", event_name := "e", payload := Json.obj [] } rfl,
    by decide,
    decode_arity_lengths.2.1 3 (by decide),
    by decide, by decide,
    decode_arity_lengths.2.2 7 (by decide) (by decide)⟩

/-- C4: on a fresh connection whose first four outbound events are the
join, leave, internally generated heartbeat (first tick absorbed by the
write of the leave, second tick emits) and send of the literal scenario, the
four frames written are exactly the stated wire texts, with reference
values as decimal strings. -/
theorem literal_scenario_frames :
    (runOps Client.init
      [.join "miami:weather" (.obj [("some", .str "param")]),
       .leave "miami:weather", .tick, .tick,
       .send "miami:weather" "report_emergency" (.obj [("category", .str "sharknado")])]).2.map
        wireText =
    ["[\"0\",\"0\",\"miami:weather\",\"phx_join\",\x7b\"some\":\"param\"\x7d]",
     "[null,\"1\",\"miami:weather\",\"phx_leave\",\x7b\x7d]",
     "[null,\"2\",\"phoenix\",\"heartbeat\",\x7b\x7d]",
     "[null,\"3\",\"miami:weather\",\"report_emergency\",\x7b\"category\":\"sharknado\"\x7d]"] := by
  decide

/-- C5: every frame issued by the library carries a present
message_reference equal to the decimal string of the allocated id;
join frames carry a join_reference equal to the message_reference, and
leave, send and heartbeat frames carry no join_reference. -/
theorem frame_reference_invariants (s : ClientState) (topic event : String)
    (payload : Json) (n : Nat) :
    (Client.join_with_payload s topic payload true).2.2 =
      [ChannelMsg.new (some s.msg_id) (some s.msg_id) topic "phx_join" payload] ∧
    (ChannelMsg.new (some s.msg_id) (some s.msg_id) topic "phx_join" payload).message_reference =
      some (toString s.msg_id) ∧
    (ChannelMsg.new (some s.msg_id) (some s.msg_id) topic "phx_join" payload).join_reference =
      (ChannelMsg.new (some s.msg_id) (some s.msg_id) topic "phx_join" payload).message_reference ∧
    (Client.leave s topic true).2.2 =
      [ChannelMsg.new none (some s.msg_id) topic "phx_leave" (.obj [])] ∧
    (ChannelMsg.new none (some s.msg_id) topic "phx_leave" (Json.obj [])).join_reference =
      (none : Option String) ∧
    (ChannelMsg.new none (some s.msg_id) topic "phx_leave" (Json.obj [])).message_reference =
      some (toString s.msg_id) ∧
    (Client.send s topic event payload true).2.2 =
      [ChannelMsg.new none (some s.msg_id) topic event payload] ∧
    (ChannelMsg.new none (some s.msg_id) topic event payload).join_reference =
      (none : Option String) ∧
    (ChannelMsg.new none (some s.msg_id) topic event payload).message_reference =
      some (toString s.msg_id) ∧
    (Client.check_and_send_heartbeat { msg_id := n, sent := false } true).2.2 =
      [ChannelMsg.new none (some n) "phoenix" "heartbeat" (.obj [])] ∧
    (ChannelMsg.new none (some n) "phoenix" "heartbeat" (Json.obj [])).join_reference =
      (none : Option String) ∧
    (ChannelMsg.new none (some n) "phoenix" "heartbeat" (Json.obj [])).message_reference =
      some (toString n) := by
  and_intros <;>
    simp [Client.join_with_payload, Client.leave, Client.send,
      Client.check_and_send_heartbeat, Client.next_id, Client.write_msg, ChannelMsg.new]

/-- C6: N sequential id allocations on a fresh client yield exactly
0, 1, ..., N-1; the counter wraps from its maximum back to 0; and each
outbound operation increments the counter exactly once and writes
exactly one frame on success. -/
theorem id_allocation (N : Nat) (hN : N ≤ usizeMod) (s : ClientState)
    (t e : String) (p : Json) (tok : Bool) :
    (Client.allocN Client.init N).1 = List.range N ∧
    (Client.next_id { msg_id := usizeMod - 1, sent := s.sent }).2.msg_id = 0 ∧
    (Client.join_with_payload s t p tok).1.msg_id = (s.msg_id + 1) % usizeMod ∧
    (Client.leave s t tok).1.msg_id = (s.msg_id + 1) % usizeMod ∧
    (Client.send s t e p tok).1.msg_id = (s.msg_id + 1) % usizeMod ∧
    (Client.check_and_send_heartbeat { msg_id := s.msg_id, sent := false } tok).1.msg_id =
      (s.msg_id + 1) % usizeMod ∧
    (Client.join_with_payload s t p true).2.2.length = 1 ∧
    (Client.leave s t true).2.2.length = 1 ∧
    (Client.send s t e p true).2.2.length = 1 ∧
    (Client.check_and_send_heartbeat { msg_id := s.msg_id, sent := false } true).2.2.length =
      1 := by
  refine ⟨?_, ?_, ?_, ?_, ?_, ?_, ?_, ?_, ?_, ?_⟩
  · rw [List.range_eq_range']
    exact allocN_range' N 0 false (by omega)
  · simp only [Client.next_id]
    rw [Nat.sub_add_cancel (by simp [usizeMod])]
    exact Nat.mod_self _
  · cases tok <;> simp [Client.join_with_payload, Client.next_id, Client.write_msg]
  · cases tok <;> simp [Client.leave, Client.next_id, Client.write_msg]
  · cases tok <;> simp [Client.send, Client.next_id, Client.write_msg]
  · cases tok <;>
      simp [Client.check_and_send_heartbeat, Client.next_id, Client.write_msg]
  · simp [Client.join_with_payload, Client.next_id, Client.write_msg]
  · simp [Client.leave, Client.next_id, Client.write_msg]
  · simp [Client.send, Client.next_id, Client.write_msg]
  · simp [Client.check_and_send_heartbeat, Client.next_id, Client.write_msg]

theorem id_allocation_witness :
    4 ≤ usizeMod ∧
    ((Client.allocN Client.init 4).1 = List.range 4 ∧
     (Client.next_id { msg_id := usizeMod - 1, sent := false }).2.msg_id = 0 ∧
     (Client.join_with_payload ⟨7, false⟩ "t" Json.null true).1.msg_id = (7 + 1) % usizeMod ∧
     (Client.leave ⟨7, false⟩ "t" true).1.msg_id = (7 + 1) % usizeMod ∧
     (Client.send ⟨7, false⟩ "t" "e" Json.null true).1.msg_id = (7 + 1) % usizeMod ∧
     (Client.check_and_send_heartbeat { msg_id := 7, sent := false } true).1.msg_id =
       (7 + 1) % usizeMod ∧
     (Client.join_with_payload ⟨7, false⟩ "t" Json.null true).2.2.length = 1 ∧
     (Client.leave ⟨7, false⟩ "t" true).2.2.length = 1 ∧
     (Client.send ⟨7, false⟩ "t" "e" Json.null true).2.2.length = 1 ∧
     (Client.check_and_send_heartbeat { msg_id := 7, sent := false } true).2.2.length = 1) :=
  ⟨by decide, id_allocation 4 (by decide) ⟨7, false⟩ "t" "e" Json.null true⟩

/-- C7: the configurator ensures the query carries vsn=2.0.0.  A URI
with no query gets exactly the query vsn=2.0.0; a URI with a non-empty
query without a vsn parameter gets the marker appended last with
existing parameters preserved; a URI whose query already contains a
vsn= parameter is left completely unmodified; and a failing rebuild
yields only a Uri or UriBuild error. -/
theorem vsn_query_normalization :
    (∀ path : String, path.data.all (fun c => isPqChar c && (c != '?')) = true →
      Builder.new ⟨path, none⟩ =
        .ok { uri := ⟨path, some "vsn=2.0.0"⟩, subProtocols := [], authToken := none }) ∧
    (∀ path q : String, path.data.all (fun c => isPqChar c && (c != '?')) = true →
      q.data.all (fun c => isPqChar c || c = '?') = true →
      q.isEmpty = false → hasVsn (some q) = false →
      Builder.new ⟨path, some q⟩ =
        .ok { uri := ⟨path, some (q ++ "&vsn=2.0.0")⟩,
              subProtocols := [], authToken := none }) ∧
    (∀ u : Uri, hasVsn u.query = true →
      Builder.new u = .ok { uri := u, subProtocols := [], authToken := none }) ∧
    (∀ (u : Uri) (e : Error), Builder.new u = .error e → e = .Uri ∨ e = .UriBuild) := by
  refine ⟨?_, ?_, ?_, ?_⟩
  · intro path hp
    have htry := tryFrom_split path "vsn=2.0.0" hp (by decide)
    have heq : path ++ "?" ++ "vsn=2.0.0" = path ++ "?vsn=2.0.0" := by
      rw [String.append_assoc]
      rfl
    rw [heq] at htry
    simp [Builder.new, hasVsn, vsnPqStr, htry]
  · intro path q hp hq hne hv
    have hqv : (q ++ "&vsn=2.0.0").data.all (fun c => isPqChar c || c = '?') = true := by
      rw [string_data_append]
      refine List.all_eq_true.mpr fun c hc => ?_
      rcases List.mem_append.mp hc with h | h
      · exact List.all_eq_true.mp hq c h
      · revert h
        have h10 : ∀ c ∈ "&vsn=2.0.0".data, (isPqChar c || decide (c = '?')) = true := by
          decide
        exact h10 c
    have htry := tryFrom_split path (q ++ "&vsn=2.0.0") hp hqv
    have heq : path ++ "?" ++ (q ++ "&vsn=2.0.0") = path ++ "?" ++ q ++ "&vsn=2.0.0" := by
      simp [String.append_assoc]
    rw [heq] at htry
    simp [Builder.new, vsnPqStr, hv, hne, htry]
  · intro u hv
    simp [Builder.new, hv]
  · intro u e h
    unfold Builder.new at h
    by_cases hv : hasVsn u.query = true
    · rw [if_pos hv] at h
      cases h
    · rw [if_neg hv] at h
      rcases htf : PathAndQuery.tryFrom (vsnPqStr u) with e2 | u2 <;> rw [htf] at h
      · injection h with h2
        exact Or.inl h2.symm
      · cases h

theorem vsn_query_normalization_witness :
    ("/socket".data.all (fun c => isPqChar c && (c != '?')) = true) ∧
    (Builder.new ⟨"/socket", none⟩ =
      .ok { uri := ⟨"/socket", some "vsn=2.0.0"⟩, subProtocols := [], authToken := none }) ∧
    ("foo=bar".data.all (fun c => isPqChar c || c = '?') = true) ∧
    ("foo=bar".isEmpty = false) ∧ (hasVsn (some "foo=bar") = false) ∧
    (Builder.new ⟨"/socket", some "foo=bar"⟩ =
      .ok { uri := ⟨"/socket", some ("foo=bar" ++ "&vsn=2.0.0")⟩,
            subProtocols := [], authToken := none }) ∧
    (hasVsn (some "vsn=1.0.0") = true) ∧
    (Builder.new ⟨"/socket", some "vsn=1.0.0"⟩ =
      .ok { uri := ⟨"/socket", some "vsn=1.0.0"⟩, subProtocols := [], authToken := none }) ∧
    (Builder.new ⟨"a b", none⟩ = .error .Uri) ∧
    (Error.Uri = Error.Uri ∨ Error.Uri = Error.UriBuild) :=
  ⟨by decide,
   vsn_query_normalization.1 "/socket" (by decide),
   by decide, by decide, by decide,
   vsn_query_normalization.2.1 "/socket" "foo=bar" (by decide) (by decide) (by decide)
     (by decide),
   by decide,
   vsn_query_normalization.2.2.1 ⟨"/socket", some "vsn=1.0.0"⟩ (by decide),
   rfl,
   vsn_query_normalization.2.2.2 ⟨"a b", none⟩ .Uri rfl⟩

/-- C8: configuring a bearer token stores the literal prefix
base64url.bearer.phx. followed by the base64url-without-padding encoding
of the raw token bytes, registers that value as a sub-protocol on the
handshake request assembled by connect, also asserts the fixed phoenix
sub-protocol marker, and the encoding emits no padding character. -/
theorem auth_token_subprotocols (b : Builder) (tokenBytes : List Nat) :
    "phoenix" ∈ (Builder.auth_token b tokenBytes).connectSubProtocols ∧
    (authTokenPrefixStr ++ base64UrlNoPad tokenBytes) ∈
      (Builder.auth_token b tokenBytes).connectSubProtocols ∧
    (Builder.auth_token b tokenBytes).authToken =
      some (authTokenPrefixStr ++ base64UrlNoPad tokenBytes) ∧
    (b64EncodeChars tokenBytes).all (fun c => c != '=') = true := by
  refine ⟨?_, ?_, rfl, ?_⟩
  · simp [Builder.auth_token, Builder.connectSubProtocols]
  · simp [Builder.auth_token, Builder.connectSubProtocols]
  · refine List.all_eq_true.mpr fun c hc => ?_
    simp only [bne_iff_ne]
    intro h
    exact b64_no_pad tokenBytes (h ▸ hc)

/-- C9: a failed transport write returns a Send error carrying the
join_reference, message_reference, topic and event of the failed message with
the payload erased to unit, and leaves the state, in particular the
sent flag, unchanged; the sent flag is set true on a successful
write. -/
theorem write_failure_send_error (s : ClientState) (m : ChannelMsg Json) :
    Client.write_msg s m false =
      (s, .error (.Send { join_reference := m.join_reference,
                          message_reference := m.message_reference,
                          topic_name := m.topic_name,
                          event_name := m.event_name,
                          payload := () })) ∧
    (Client.write_msg s m false).1.sent = s.sent ∧
    (Client.write_msg s m true).1.sent = true := by
  refine ⟨rfl, rfl, ?_⟩
  simp [Client.write_msg]

/-- C10: for every received message with a generic JSON payload and
every requested target type, deserialize_payload returns Ok with the
message completely unchanged: the target type parameter is never used,
so no conversion or validation happens and the call cannot fail. -/
theorem deserialize_payload_identity (P : Type) (m : Message Json) :
    Message.deserialize_payload P m = .ok m := by
  rcases m with ⟨jr, mr, t, e, p⟩
  rfl
